import Mathlib

/-!
Verification of the kernel-ABI encoding layer of the peripheral library:
the ioctl request-code encoder and the SPI/I2C facade operations from
`src/sys/spi.rs` and `src/sys/i2c.rs`, shallowly embedded over `Nat`.

The Rust `IoctlNumType` is `c_ulong` (64-bit) on gnu targets; every value
produced by the encoder fits in 32 bits, so `Nat` models it faithfully
(no overflow can occur in the source expressions embedded here).
-/

/-! ## Ioctl request-code encoder (`mod private` in src/sys/spi.rs) -/

def NONE : Nat := 0
def READ : Nat := 2
def WRITE : Nat := 1
def SIZEBITS : Nat := 14
def DIRBITS : Nat := 2

def NRBITS : Nat := 8
def TYPEBITS : Nat := 8

def NRSHIFT : Nat := 0
def TYPESHIFT : Nat := NRSHIFT + NRBITS
def SIZESHIFT : Nat := TYPESHIFT + TYPEBITS
def DIRSHIFT : Nat := SIZESHIFT + SIZEBITS

def NRMASK : Nat := (1 <<< NRBITS) - 1
def TYPEMASK : Nat := (1 <<< TYPEBITS) - 1
def SIZEMASK : Nat := (1 <<< SIZEBITS) - 1
def DIRMASK : Nat := (1 <<< DIRBITS) - 1

/-- The `ioc!` macro: packs direction, type, number and size into one
request code, each field masked to its width and shifted to its offset. -/
def ioc (dir ty nr sz : Nat) : Nat :=
  ((dir &&& DIRMASK) <<< DIRSHIFT) |||
  ((ty &&& TYPEMASK) <<< TYPESHIFT) |||
  ((nr &&& NRMASK) <<< NRSHIFT) |||
  ((sz &&& SIZEMASK) <<< SIZESHIFT)

/-- `request_code_read!`: an `ioc!` application with direction `READ`. -/
def request_code_read (ty nr sz : Nat) : Nat := ioc READ ty nr sz

def SPI_IOC_MAGIC : Nat := 107
def SPI_IOC_NR_TRANSFER : Nat := 0
def SPI_IOC_NR_MODE : Nat := 1
def SPI_IOC_NR_LSB_FIRST : Nat := 2
def SPI_IOC_NR_BITS_PER_WORD : Nat := 3
def SPI_IOC_NR_MAX_SPEED_HZ : Nat := 4
def SPI_IOC_NR_MODE32 : Nat := 5

/-- The request code issued by `get_mode_u8` (hence by `SPI::mode`):
`ioctl_read!` uses `request_code_read!` with `size_of::<u8>() = 1`. -/
def SPI_IOC_RD_MODE : Nat := request_code_read SPI_IOC_MAGIC SPI_IOC_NR_MODE 1

lemma or_mul_pow_add {i a b : Nat} (hb : b < 2 ^ i) : a * 2 ^ i ||| b = a * 2 ^ i + b := by
  rw [Nat.mul_comm]
  exact (Nat.mul_add_lt_is_or hb a).symm

/-- Arithmetic normal form of the packed request code: the four masked
fields occupy disjoint ranges of the result. -/
lemma ioc_eq_sum (dir ty nr sz : Nat) :
    ioc dir ty nr sz =
      dir % 2 ^ 2 * 2 ^ 30 + (sz % 2 ^ 14 * 2 ^ 16 + (ty % 2 ^ 8 * 2 ^ 8 + nr % 2 ^ 8)) := by
  have hd : dir &&& DIRMASK = dir % 2 ^ 2 := Nat.and_pow_two_sub_one_eq_mod dir 2
  have ht : ty &&& TYPEMASK = ty % 2 ^ 8 := Nat.and_pow_two_sub_one_eq_mod ty 8
  have hn : nr &&& NRMASK = nr % 2 ^ 8 := Nat.and_pow_two_sub_one_eq_mod nr 8
  have hs : sz &&& SIZEMASK = sz % 2 ^ 14 := Nat.and_pow_two_sub_one_eq_mod sz 14
  have sh : ∀ a k : Nat, a <<< k = a * 2 ^ k := fun a k => Nat.shiftLeft_eq a k
  have e1 : ty % 2 ^ 8 * 2 ^ 8 ||| nr % 2 ^ 8 = ty % 2 ^ 8 * 2 ^ 8 + nr % 2 ^ 8 :=
    or_mul_pow_add (Nat.mod_lt _ (by norm_num))
  have hlt16 : ty % 2 ^ 8 * 2 ^ 8 + nr % 2 ^ 8 < 2 ^ 16 := by
    have h1 : ty % 2 ^ 8 < 2 ^ 8 := Nat.mod_lt _ (by norm_num)
    have h2 : nr % 2 ^ 8 < 2 ^ 8 := Nat.mod_lt _ (by norm_num)
    omega
  have e2 : sz % 2 ^ 14 * 2 ^ 16 ||| (ty % 2 ^ 8 * 2 ^ 8 + nr % 2 ^ 8) =
      sz % 2 ^ 14 * 2 ^ 16 + (ty % 2 ^ 8 * 2 ^ 8 + nr % 2 ^ 8) := or_mul_pow_add hlt16
  have hlt30 : sz % 2 ^ 14 * 2 ^ 16 + (ty % 2 ^ 8 * 2 ^ 8 + nr % 2 ^ 8) < 2 ^ 30 := by
    have h3 : sz % 2 ^ 14 < 2 ^ 14 := Nat.mod_lt _ (by norm_num)
    omega
  have e3 : dir % 2 ^ 2 * 2 ^ 30 ||| (sz % 2 ^ 14 * 2 ^ 16 + (ty % 2 ^ 8 * 2 ^ 8 + nr % 2 ^ 8)) =
      dir % 2 ^ 2 * 2 ^ 30 + (sz % 2 ^ 14 * 2 ^ 16 + (ty % 2 ^ 8 * 2 ^ 8 + nr % 2 ^ 8)) :=
    or_mul_pow_add hlt30
  calc ioc dir ty nr sz
      = dir % 2 ^ 2 * 2 ^ 30 ||| ty % 2 ^ 8 * 2 ^ 8 ||| nr % 2 ^ 8 |||
          sz % 2 ^ 14 * 2 ^ 16 := by
        show ((dir &&& DIRMASK) <<< DIRSHIFT) ||| ((ty &&& TYPEMASK) <<< TYPESHIFT) |||
            ((nr &&& NRMASK) <<< NRSHIFT) ||| ((sz &&& SIZEMASK) <<< SIZESHIFT) = _
        rw [hd, ht, hn, hs, sh, sh, sh, sh]
        norm_num [DIRSHIFT, SIZESHIFT, TYPESHIFT, NRSHIFT, SIZEBITS, TYPEBITS, NRBITS]
    _ = dir % 2 ^ 2 * 2 ^ 30 |||
          (sz % 2 ^ 14 * 2 ^ 16 ||| (ty % 2 ^ 8 * 2 ^ 8 ||| nr % 2 ^ 8)) := by
        rw [Nat.or_assoc, Nat.or_assoc,
          Nat.or_comm (nr % 2 ^ 8) (sz % 2 ^ 14 * 2 ^ 16),
          ← Nat.or_assoc (ty % 2 ^ 8 * 2 ^ 8),
          Nat.or_comm (ty % 2 ^ 8 * 2 ^ 8) (sz % 2 ^ 14 * 2 ^ 16),
          Nat.or_assoc]
    _ = dir % 2 ^ 2 * 2 ^ 30 + (sz % 2 ^ 14 * 2 ^ 16 + (ty % 2 ^ 8 * 2 ^ 8 + nr % 2 ^ 8)) := by
        rw [e1, e2, e3]

lemma ioc_extract_nr (dir ty nr sz : Nat) :
    ioc dir ty nr sz &&& NRMASK = nr % 2 ^ 8 := by
  rw [show ioc dir ty nr sz &&& NRMASK = ioc dir ty nr sz % 2 ^ 8 from
      Nat.and_pow_two_sub_one_eq_mod _ 8, ioc_eq_sum]
  omega

lemma ioc_extract_ty (dir ty nr sz : Nat) :
    (ioc dir ty nr sz >>> TYPESHIFT) &&& TYPEMASK = ty % 2 ^ 8 := by
  rw [show (ioc dir ty nr sz >>> TYPESHIFT) &&& TYPEMASK =
        (ioc dir ty nr sz >>> TYPESHIFT) % 2 ^ 8 from Nat.and_pow_two_sub_one_eq_mod _ 8,
      show ioc dir ty nr sz >>> TYPESHIFT = ioc dir ty nr sz / 2 ^ 8 from
        Nat.shiftRight_eq_div_pow _ _, ioc_eq_sum]
  omega

lemma ioc_extract_sz (dir ty nr sz : Nat) :
    (ioc dir ty nr sz >>> SIZESHIFT) &&& SIZEMASK = sz % 2 ^ 14 := by
  rw [show (ioc dir ty nr sz >>> SIZESHIFT) &&& SIZEMASK =
        (ioc dir ty nr sz >>> SIZESHIFT) % 2 ^ 14 from Nat.and_pow_two_sub_one_eq_mod _ 14,
      show ioc dir ty nr sz >>> SIZESHIFT = ioc dir ty nr sz / 2 ^ 16 from
        Nat.shiftRight_eq_div_pow _ _, ioc_eq_sum]
  omega

lemma ioc_extract_dir (dir ty nr sz : Nat) :
    (ioc dir ty nr sz >>> DIRSHIFT) &&& DIRMASK = dir % 2 ^ 2 := by
  rw [show (ioc dir ty nr sz >>> DIRSHIFT) &&& DIRMASK =
        (ioc dir ty nr sz >>> DIRSHIFT) % 2 ^ 2 from Nat.and_pow_two_sub_one_eq_mod _ 2,
      show ioc dir ty nr sz >>> DIRSHIFT = ioc dir ty nr sz / 2 ^ 30 from
        Nat.shiftRight_eq_div_pow _ _, ioc_eq_sum]
  omega

lemma ioc_lt_two_pow_32 (dir ty nr sz : Nat) : ioc dir ty nr sz < 2 ^ 32 := by
  rw [ioc_eq_sum]
  have h1 : dir % 2 ^ 2 < 2 ^ 2 := Nat.mod_lt _ (by norm_num)
  have h2 : sz % 2 ^ 14 < 2 ^ 14 := Nat.mod_lt _ (by norm_num)
  have h3 : ty % 2 ^ 8 < 2 ^ 8 := Nat.mod_lt _ (by norm_num)
  have h4 : nr % 2 ^ 8 < 2 ^ 8 := Nat.mod_lt _ (by norm_num)
  omega

/-- C2: for every in-range direction, type byte, number byte and size, the
packed request code decodes back to exactly those four inputs when each
field is extracted via its fixed shift and mask (number at bit 0 width 8,
type at bit 8 width 8, size at bit 16 width 14, direction at bit 30 width 2). -/
theorem ioc_roundtrip (dir ty nr sz : Nat)
    (hdir : dir < 4) (hty : ty < 256) (hnr : nr < 256) (hsz : sz < 2 ^ 14) :
    ioc dir ty nr sz &&& NRMASK = nr ∧
    (ioc dir ty nr sz >>> TYPESHIFT) &&& TYPEMASK = ty ∧
    (ioc dir ty nr sz >>> SIZESHIFT) &&& SIZEMASK = sz ∧
    (ioc dir ty nr sz >>> DIRSHIFT) &&& DIRMASK = dir := by
  refine ⟨?_, ?_, ?_, ?_⟩
  · rw [ioc_extract_nr]; omega
  · rw [ioc_extract_ty]; omega
  · rw [ioc_extract_sz]; omega
  · rw [ioc_extract_dir]; omega

theorem ioc_roundtrip_witness :
    ioc 2 107 1 1 &&& NRMASK = 1 ∧
    (ioc 2 107 1 1 >>> TYPESHIFT) &&& TYPEMASK = 107 ∧
    (ioc 2 107 1 1 >>> SIZESHIFT) &&& SIZEMASK = 1 ∧
    (ioc 2 107 1 1 >>> DIRSHIFT) &&& DIRMASK = 2 :=
  ioc_roundtrip 2 107 1 1 (by norm_num) (by norm_num) (by norm_num) (by norm_num)

/-- Modelled from the spec's words, for comparison with `ioc` only: the
packing C3 describes when its field order is read literally — fields laid
out most-significant first in the listed order direction (width 2),
type (8), number (8), size (14). -/
def iocSpecOrder (dir ty nr sz : Nat) : Nat :=
  ((dir &&& 3) <<< 30) ||| ((ty &&& 255) <<< 22) ||| ((nr &&& 255) <<< 14) ||| (sz &&& 16383)

/-- C3 counterexample: the code does not place the type field above the size
field.  At direction 0, type 1, number 0, size 0 the code produces `0x100`
(type at bit 8, below the size field at bit 16), while the claimed
most-significant-first order direction, type, number, size would put the
type field at bit 22 and produce `0x400000`. -/
theorem ioc_field_order_counterexample :
    ioc 0 1 0 0 = 0x100 ∧ iocSpecOrder 0 1 0 0 = 0x400000 ∧
    ioc 0 1 0 0 ≠ iocSpecOrder 0 1 0 0 := by decide

/-- C3 (amended): the encoder packs its four fields at non-overlapping bit
offsets, most-significant field first in the order direction, size, type,
number; each field is masked to its width before shifting, so for every
input — including out-of-range ones — each extracted field equals the
correspondingly masked input (no field overflows into a neighbor), and the
whole code fits in 32 bits. -/
theorem ioc_fields_masked_nonoverlapping (dir ty nr sz : Nat) :
    ioc dir ty nr sz &&& NRMASK = nr &&& NRMASK ∧
    (ioc dir ty nr sz >>> TYPESHIFT) &&& TYPEMASK = ty &&& TYPEMASK ∧
    (ioc dir ty nr sz >>> SIZESHIFT) &&& SIZEMASK = sz &&& SIZEMASK ∧
    (ioc dir ty nr sz >>> DIRSHIFT) &&& DIRMASK = dir &&& DIRMASK ∧
    TYPESHIFT = NRSHIFT + NRBITS ∧ SIZESHIFT = TYPESHIFT + TYPEBITS ∧
    DIRSHIFT = SIZESHIFT + SIZEBITS ∧ DIRSHIFT + DIRBITS = 32 ∧
    ioc dir ty nr sz < 2 ^ 32 := by
  refine ⟨?_, ?_, ?_, ?_, rfl, rfl, rfl, rfl, ioc_lt_two_pow_32 dir ty nr sz⟩
  · rw [ioc_extract_nr]; exact (Nat.and_pow_two_sub_one_eq_mod nr 8).symm
  · rw [ioc_extract_ty]; exact (Nat.and_pow_two_sub_one_eq_mod ty 8).symm
  · rw [ioc_extract_sz]; exact (Nat.and_pow_two_sub_one_eq_mod sz 14).symm
  · rw [ioc_extract_dir]; exact (Nat.and_pow_two_sub_one_eq_mod dir 2).symm

/-- C4: the read-direction request code for type `'k'` (0x6B), number 1,
size 1 — the SPI get-mode query issued by `SPI::mode` through
`get_mode_u8` — is exactly the documented kernel ABI constant. -/
theorem spi_rd_mode_request_code : SPI_IOC_RD_MODE = 0x80016B01 := by decide

/-! ## SPI mode byte handling (src/sys/spi.rs) -/

def SPI_CPHA : Nat := 0x01
def SPI_CPOL : Nat := 0x02
def SPI_CS_HIGH : Nat := 0x04
def SPI_LSB_FIRST : Nat := 0x08
def SPI_3WIRE : Nat := 0x10
def SPI_LOOP : Nat := 0x20
def SPI_NO_CS : Nat := 0x40
def SPI_READY : Nat := 0x80

inductive Mode where
  | Mode0
  | Mode1
  | Mode2
  | Mode3
  deriving DecidableEq

/-- `Mode as u8`. -/
def Mode.toNat : Mode → Nat
  | .Mode0 => 0
  | .Mode1 => 1
  | .Mode2 => 2
  | .Mode3 => 3

/-- `SPI::mode`: the mode byte read from the device is reduced to its low
two bits (`mode & 0x03`) and returned as a `Mode`; all other bits of the
byte are discarded at this point. -/
def SPI.modeFromByte (b : Nat) : Mode :=
  match b &&& 0x03 with
  | 0x01 => .Mode1
  | 0x02 => .Mode2
  | 0x03 => .Mode3
  | _ => .Mode0

/-- `SPI::set_mode`: the byte written back to the device when the device's
current mode byte is `prior`.  `old_mode` is the `Mode` obtained from
`SPI::mode`, and `!0x03 = 0xFC` on `u8`:
`new_mode = ((old_mode as u8) & !0x03) | (mode as u8)`. -/
def SPI.setModeWrittenByte (prior : Nat) (mode : Mode) : Nat :=
  ((SPI.modeFromByte prior).toNat &&& 0xFC) ||| mode.toNat

/-- C1: evaluation at the failing input.  With prior mode byte `0x04`
(`SPI_CS_HIGH` set) `set_mode(Mode0)` writes the byte `0x00`: the
CS-polarity bit is cleared, so the bits outside the low two mode bits are
not preserved, contrary to the claim and to the source's own comment
"Make sure we only replace the CPOL/CPHA bits" (`SPI::mode` pre-masks the
prior byte with `0x03`, so `set_mode` rebuilds the byte from the mode bits
alone). -/
theorem spi_set_mode_clears_unrelated_bits :
    SPI.setModeWrittenByte SPI_CS_HIGH Mode.Mode0 = 0x00 ∧
    SPI.setModeWrittenByte SPI_CS_HIGH Mode.Mode0 &&& 0xFC ≠ SPI_CS_HIGH &&& 0xFC := by
  decide

/-! ## SPI transfer descriptors (`spi_ioc_transfer` in src/sys/spi.rs) -/

/-- A borrowed byte buffer: its machine address (`as_ptr() as usize`) and
its contents.  Addresses are below `2^64` on the target, so the
`usize → u64` casts in the source are lossless and not modelled. -/
structure Buffer where
  addr : Nat
  data : List Nat

structure spi_ioc_transfer where
  tx_buf : Nat
  rx_buf : Nat
  len : Nat
  speed_hz : Nat
  delay_usecs : Nat
  bits_per_word : Nat
  cs_change : Nat
  pad : Nat
  deriving DecidableEq

/-- `Default::default()` for `spi_ioc_transfer`: all fields zero. -/
def spi_ioc_transfer.default : spi_ioc_transfer := ⟨0, 0, 0, 0, 0, 0, 0, 0⟩

/-- `spi_ioc_transfer::read_write`.  The source asserts
`assert_eq!(tx_buf.len(), rx_buf.len())` — a panic, modelled as `none`,
so no descriptor is produced on mismatch.  The `len` field stores
`tx_buf.len() as u32`, i.e. the length reduced modulo `2^32`. -/
def spi_ioc_transfer.read_write (tx_buf : Buffer) (rx_buf : Buffer) :
    Option spi_ioc_transfer :=
  if tx_buf.data.length = rx_buf.data.length then
    some { spi_ioc_transfer.default with
            rx_buf := rx_buf.addr
            tx_buf := tx_buf.addr
            len := tx_buf.data.length % 2 ^ 32 }
  else
    none

lemma read_write_of_eq_len (a1 a2 : Nat) (l1 l2 : List Nat)
    (h : l1.length = l2.length) :
    spi_ioc_transfer.read_write ⟨a1, l1⟩ ⟨a2, l2⟩ =
      some ⟨a1, a2, l1.length % 2 ^ 32, 0, 0, 0, 0, 0⟩ := by
  simp [spi_ioc_transfer.read_write, spi_ioc_transfer.default, h]

/-- C6 counterexample: at the concrete pair of equal-length buffers of
length `2^32`, the constructed descriptor's `len` field is `0`
(`tx_buf.len() as u32` wraps), not the common buffer length `2^32`. -/
theorem read_write_len_cast_counterexample :
    spi_ioc_transfer.read_write ⟨1, List.replicate (2 ^ 32) 0⟩ ⟨2, List.replicate (2 ^ 32) 0⟩ =
      some ⟨1, 2, 0, 0, 0, 0, 0, 0⟩ ∧
    (List.replicate (2 ^ 32) (0 : Nat)).length ≠ 0 := by
  have hlen : (List.replicate (2 ^ 32) (0 : Nat)).length = 2 ^ 32 :=
    List.length_replicate _ _
  have h := read_write_of_eq_len 1 2 (List.replicate (2 ^ 32) 0) (List.replicate (2 ^ 32) 0) rfl
  rw [hlen] at h
  rw [Nat.mod_self] at h
  exact ⟨h, by rw [hlen]; norm_num⟩

/-- C6 (amended): constructing a full-duplex descriptor from buffers of
unequal lengths fails fast via the assertion (a panic, modelled `none`)
and never produces a descriptor; for equal-length buffers it produces a
descriptor whose `len` field is the common buffer length reduced modulo
`2^32` — equal to the common length whenever it is below `2^32` — and
whose `tx_buf`/`rx_buf` fields are the two buffers' addresses. -/
theorem read_write_descriptor (tx_buf : Buffer) (rx_buf : Buffer) :
    (tx_buf.data.length ≠ rx_buf.data.length →
      spi_ioc_transfer.read_write tx_buf rx_buf = none) ∧
    (tx_buf.data.length = rx_buf.data.length →
      spi_ioc_transfer.read_write tx_buf rx_buf =
        some { spi_ioc_transfer.default with
                rx_buf := rx_buf.addr
                tx_buf := tx_buf.addr
                len := tx_buf.data.length % 2 ^ 32 } ∧
      (tx_buf.data.length < 2 ^ 32 →
        tx_buf.data.length % 2 ^ 32 = tx_buf.data.length)) := by
  refine ⟨fun h => ?_, fun h => ⟨?_, fun hlt => Nat.mod_eq_of_lt hlt⟩⟩
  · simp [spi_ioc_transfer.read_write, h]
  · simp [spi_ioc_transfer.read_write, h]

theorem read_write_descriptor_witness :
    spi_ioc_transfer.read_write ⟨5, [1, 2]⟩ ⟨9, [0, 0]⟩ =
      some { spi_ioc_transfer.default with rx_buf := 9, tx_buf := 5, len := 2 % 2 ^ 32 } ∧
    spi_ioc_transfer.read_write ⟨5, [1, 2]⟩ ⟨9, [0]⟩ = none := by
  constructor
  · exact ((read_write_descriptor ⟨5, [1, 2]⟩ ⟨9, [0, 0]⟩).2 rfl).1
  · exact (read_write_descriptor ⟨5, [1, 2]⟩ ⟨9, [0]⟩).1 (by decide)

/-! ## I2C (src/sys/i2c.rs) -/

def FUNC_I2C : Nat := 0x01
def FUNC_10BIT_ADDR : Nat := 0x02
def FUNC_PROTOCOL_MANGLING : Nat := 0x04
def FUNC_SMBUS_PEC : Nat := 0x08
def FUNC_NOSTART : Nat := 0x10
def FUNC_SLAVE : Nat := 0x20

/-- Capabilities bitmask returned by the `I2C_FUNCS` ioctl, captured once
when the bus is opened. -/
structure Capabilities where
  funcs : Nat
  deriving DecidableEq

def Capabilities.i2c (c : Capabilities) : Bool := decide (c.funcs &&& FUNC_I2C > 0)

def Capabilities.slave (c : Capabilities) : Bool := decide (c.funcs &&& FUNC_SLAVE > 0)

def Capabilities.addr_10bit (c : Capabilities) : Bool :=
  decide (c.funcs &&& FUNC_10BIT_ADDR > 0)

def Capabilities.protocol_mangling (c : Capabilities) : Bool :=
  decide (c.funcs &&& FUNC_PROTOCOL_MANGLING > 0)

def Capabilities.nostart (c : Capabilities) : Bool := decide (c.funcs &&& FUNC_NOSTART > 0)

def Capabilities.smbus_pec (c : Capabilities) : Bool :=
  decide (c.funcs &&& FUNC_SMBUS_PEC > 0)

def RDWR_FLAG_RD : Nat := 0x0001
def RDWR_FLAG_TEN : Nat := 0x0010

/-- One `RDWR` transfer segment: slave address, flags, buffer length
(a `u16` in the kernel ABI) and buffer address (`usize`). -/
structure RdwrSegment where
  addr : Nat
  flags : Nat
  len : Nat
  data : Nat
  deriving DecidableEq

/-- The `RDWR` request: the segment array and the segment count `nmsgs`. -/
structure RdwrRequest where
  segments : List RdwrSegment
  nmsgs : Nat
  deriving DecidableEq

/-- The ioctl calls the I2C facade can issue, recorded as a trace. -/
inductive IoctlCall where
  | i2cSlave (addr : Nat)
  | i2cTenbit (enable : Bool)
  | i2cRdwr (request : RdwrRequest)
  deriving DecidableEq

/-- The mutable state of the `I2C` bus object (the file handle itself is
external and not modelled). -/
structure I2C where
  bus : Nat
  addr_10bit : Bool
  address : Nat
  funcs : Capabilities
  deriving DecidableEq

/-- `I2C::set_slave_address`.  Returns the result, the state after the
call and the trace of ioctl calls issued; the `I2C_SLAVE` ioctl itself is
modelled as succeeding.  The validation mirrors the source:
out-of-range addresses are rejected before any kernel call. -/
def I2C.set_slave_address (s : I2C) (slave_address : Nat) :
    Except String Unit × I2C × List IoctlCall :=
  if (!s.addr_10bit && (slave_address >>> 3 == 0b1111 || decide (slave_address > 0x7F)))
      || (s.addr_10bit && decide (slave_address > 0x03FF)) then
    (Except.error ("Invalid slave address: " ++ toString slave_address), s, [])
  else
    (Except.ok (), { s with address := slave_address }, [IoctlCall.i2cSlave slave_address])

/-- `I2C::set_addr_10bit`.  Rejected before any kernel call when the
capability bitmask captured at open time lacks the 10-bit bit; the
`I2C_TENBIT` ioctl itself is modelled as succeeding. -/
def I2C.set_addr_10bit (s : I2C) (addr_10bit : Bool) :
    Except String Unit × I2C × List IoctlCall :=
  if !(Capabilities.addr_10bit s.funcs) then
    (Except.error "FeatureNotSupported: addr_10bit", s, [])
  else
    (Except.ok (), { s with addr_10bit := addr_10bit }, [IoctlCall.i2cTenbit addr_10bit])

/-- `I2C::write_read`.  Builds the write segment then the read segment and
issues one `I2C_RDWR` ioctl (modelled as succeeding); empty buffers
short-circuit to `Ok(())`.  Segment lengths are `as u16` casts of the
buffer lengths, i.e. reduced modulo `2^16`. -/
def I2C.write_read (s : I2C) (write_buffer read_buffer : Buffer) :
    Except String Unit × List IoctlCall :=
  if write_buffer.data.isEmpty || read_buffer.data.isEmpty then
    (Except.ok (), [])
  else
    let segment_write : RdwrSegment :=
      { addr := s.address
        flags := if s.addr_10bit then RDWR_FLAG_TEN else 0
        len := write_buffer.data.length % 2 ^ 16
        data := write_buffer.addr }
    let segment_read : RdwrSegment :=
      { addr := s.address
        flags := if s.addr_10bit then RDWR_FLAG_RD ||| RDWR_FLAG_TEN else RDWR_FLAG_RD
        len := read_buffer.data.length % 2 ^ 16
        data := read_buffer.addr }
    (Except.ok (),
     [IoctlCall.i2cRdwr { segments := [segment_write, segment_read], nmsgs := 2 }])

lemma shiftRight_three_eq_div (a : Nat) : a >>> 3 = a / 8 :=
  Nat.shiftRight_eq_div_pow a 3

/-- C5: with 10-bit addressing off, `set_slave_address` accepts every
address in `0x08..=0x77`, and rejects — with an error returned before any
kernel call and with the stored address (the whole state) unchanged —
every address `≥ 0x78`, i.e. the reserved block `0b1111xxx` and
everything above `0x7F`.  With 10-bit addressing on, it rejects every
address above `0x3FF` the same way and accepts all others. -/
theorem set_slave_address_validation (s : I2C) (a : Nat) :
    (s.addr_10bit = false → 0x08 ≤ a → a ≤ 0x77 →
      (I2C.set_slave_address s a).1 = Except.ok ()) ∧
    (s.addr_10bit = false → 0x78 ≤ a →
      I2C.set_slave_address s a =
        (Except.error ("Invalid slave address: " ++ toString a), s, [])) ∧
    (s.addr_10bit = true → a ≤ 0x3FF →
      (I2C.set_slave_address s a).1 = Except.ok ()) ∧
    (s.addr_10bit = true → 0x3FF < a →
      I2C.set_slave_address s a =
        (Except.error ("Invalid slave address: " ++ toString a), s, [])) := by
  refine ⟨fun h10 h1 h2 => ?_, fun h10 h1 => ?_, fun h10 h1 => ?_, fun h10 h1 => ?_⟩
  · rw [I2C.set_slave_address, if_neg]
    simp only [h10, shiftRight_three_eq_div, Bool.not_false, Bool.true_and, Bool.false_and,
      Bool.or_false, Bool.or_eq_true, beq_iff_eq, decide_eq_true_eq]
    omega
  · rw [I2C.set_slave_address, if_pos]
    simp only [h10, shiftRight_three_eq_div, Bool.not_false, Bool.true_and, Bool.false_and,
      Bool.or_false, Bool.or_eq_true, beq_iff_eq, decide_eq_true_eq]
    omega
  · rw [I2C.set_slave_address, if_neg]
    simp only [h10, shiftRight_three_eq_div, Bool.not_true, Bool.false_and, Bool.true_and,
      Bool.false_or, decide_eq_true_eq]
    omega
  · rw [I2C.set_slave_address, if_pos]
    simp only [h10, shiftRight_three_eq_div, Bool.not_true, Bool.false_and, Bool.true_and,
      Bool.false_or, decide_eq_true_eq]
    omega

theorem set_slave_address_validation_witness :
    (I2C.set_slave_address ⟨1, false, 0, ⟨0x21⟩⟩ 0x20).1 = Except.ok () ∧
    I2C.set_slave_address ⟨1, false, 0, ⟨0x21⟩⟩ 0x78 =
      (Except.error ("Invalid slave address: " ++ toString 0x78), ⟨1, false, 0, ⟨0x21⟩⟩, []) :=
  ⟨(set_slave_address_validation ⟨1, false, 0, ⟨0x21⟩⟩ 0x20).1 rfl (by norm_num) (by norm_num),
   (set_slave_address_validation ⟨1, false, 0, ⟨0x21⟩⟩ 0x78).2.1 rfl (by norm_num)⟩

/-- C7: `set_addr_10bit` returns the unsupported-feature error — issued
before any kernel call, with the whole state including the cached
`addr_10bit` flag unchanged — whenever the capability bitmask captured at
open time lacks the 10-bit-addressing bit; when that bit is set, the
validation step returns no such error. -/
theorem set_addr_10bit_capability_gate (s : I2C) (b : Bool) :
    (s.funcs.funcs &&& FUNC_10BIT_ADDR = 0 →
      I2C.set_addr_10bit s b =
        (Except.error "FeatureNotSupported: addr_10bit", s, [])) ∧
    (s.funcs.funcs &&& FUNC_10BIT_ADDR ≠ 0 →
      (I2C.set_addr_10bit s b).1 = Except.ok ()) := by
  constructor
  · intro h
    rw [I2C.set_addr_10bit, if_pos]
    simp only [Capabilities.addr_10bit, h, Bool.not_eq_true', decide_eq_false_iff_not]
    omega
  · intro h
    rw [I2C.set_addr_10bit, if_neg]
    simp only [Capabilities.addr_10bit, Bool.not_eq_true', decide_eq_false_iff_not]
    omega

theorem set_addr_10bit_capability_gate_witness :
    I2C.set_addr_10bit ⟨1, false, 0, ⟨0x21⟩⟩ true =
      (Except.error "FeatureNotSupported: addr_10bit", ⟨1, false, 0, ⟨0x21⟩⟩, []) ∧
    (I2C.set_addr_10bit ⟨1, false, 0, ⟨0x23⟩⟩ true).1 = Except.ok () :=
  ⟨(set_addr_10bit_capability_gate ⟨1, false, 0, ⟨0x21⟩⟩ true).1 (by decide),
   (set_addr_10bit_capability_gate ⟨1, false, 0, ⟨0x23⟩⟩ true).2 (by decide)⟩

/-- C9: each capability predicate masks its fixed bit constant against the
bitmask captured at bus open; for the bitmask `0x21`
(`FUNC_I2C ||| FUNC_SLAVE`), `i2c` and `slave` hold and `addr_10bit`
does not. -/
theorem capabilities_bitmask_scenario :
    (0x21 : Nat) = FUNC_I2C ||| FUNC_SLAVE ∧
    Capabilities.i2c ⟨0x21⟩ = true ∧
    Capabilities.slave ⟨0x21⟩ = true ∧
    Capabilities.addr_10bit ⟨0x21⟩ = false := by decide

/-- C10: if either buffer handed to `write_read` is empty the call
returns success immediately, building no transfer segments and issuing
no kernel call. -/
theorem write_read_empty_buffer_no_call (s : I2C) (wb rb : Buffer)
    (h : wb.data = [] ∨ rb.data = []) :
    I2C.write_read s wb rb = (Except.ok (), []) := by
  rw [I2C.write_read, if_pos]
  rcases h with h | h <;> simp [h]

theorem write_read_empty_buffer_no_call_witness :
    I2C.write_read ⟨1, false, 0x36, ⟨0x21⟩⟩ ⟨7, []⟩ ⟨9, [1, 2]⟩ = (Except.ok (), []) :=
  write_read_empty_buffer_no_call ⟨1, false, 0x36, ⟨0x21⟩⟩ ⟨7, []⟩ ⟨9, [1, 2]⟩ (Or.inl rfl)

lemma write_read_nonempty (s : I2C) (wb rb : Buffer)
    (hw : wb.data ≠ []) (hr : rb.data ≠ []) :
    I2C.write_read s wb rb =
      (Except.ok (),
       [IoctlCall.i2cRdwr
         { segments :=
            [{ addr := s.address
               flags := if s.addr_10bit then RDWR_FLAG_TEN else 0
               len := wb.data.length % 2 ^ 16
               data := wb.addr },
             { addr := s.address
               flags := if s.addr_10bit then RDWR_FLAG_RD ||| RDWR_FLAG_TEN else RDWR_FLAG_RD
               len := rb.data.length % 2 ^ 16
               data := rb.addr }]
           nmsgs := 2 }]) := by
  rw [I2C.write_read, if_neg]
  simp [hw, hr]

/-- C8 counterexample: at a write buffer of length `2^16` and read buffer
`[0]`, the write segment's `len` field is `0` (`len() as u16` wraps), not
the write buffer's length `2^16`. -/
theorem write_read_len_cast_counterexample :
    I2C.write_read ⟨1, false, 0x36, ⟨0x21⟩⟩ ⟨3, List.replicate (2 ^ 16) 0⟩ ⟨4, [0]⟩ =
      (Except.ok (),
       [IoctlCall.i2cRdwr { segments := [⟨0x36, 0, 0, 3⟩, ⟨0x36, RDWR_FLAG_RD, 1, 4⟩]
                            nmsgs := 2 }]) ∧
    (List.replicate (2 ^ 16) (0 : Nat)).length ≠ 0 := by
  have hlen : (List.replicate (2 ^ 16) (0 : Nat)).length = 2 ^ 16 :=
    List.length_replicate _ _
  have hne : List.replicate (2 ^ 16) (0 : Nat) ≠ [] := by
    intro h
    rw [h] at hlen
    exact absurd hlen.symm (by norm_num)
  have h := write_read_nonempty ⟨1, false, 0x36, ⟨0x21⟩⟩ ⟨3, List.replicate (2 ^ 16) 0⟩
    ⟨4, [0]⟩ hne (by norm_num)
  rw [show (⟨3, List.replicate (2 ^ 16) 0⟩ : Buffer).data.length = 2 ^ 16 from hlen,
    Nat.mod_self] at h
  refine ⟨?_, by rw [hlen]; norm_num⟩
  rw [h]
  rfl

/-- C8 (amended): for every non-empty write buffer and non-empty read
buffer, `write_read` builds the write segment first and the read segment
second, both carrying the stored slave address; the write segment's flags
are the 10-bit flag if 10-bit mode is on and `0` otherwise, the read
segment's flags are the read flag plus the 10-bit flag when 10-bit mode
is on; each segment's `data` field is its buffer's address and its `len`
field is its buffer's length reduced modulo `2^16` (equal to the length
whenever it is below `2^16`); the request passed to the single kernel
call has segment count 2. -/
theorem write_read_segment_pair (s : I2C) (wb rb : Buffer)
    (hw : wb.data ≠ []) (hr : rb.data ≠ []) :
    (I2C.write_read s wb rb =
      (Except.ok (),
       [IoctlCall.i2cRdwr
         { segments :=
            [{ addr := s.address
               flags := if s.addr_10bit then RDWR_FLAG_TEN else 0
               len := wb.data.length % 2 ^ 16
               data := wb.addr },
             { addr := s.address
               flags := if s.addr_10bit then RDWR_FLAG_RD ||| RDWR_FLAG_TEN else RDWR_FLAG_RD
               len := rb.data.length % 2 ^ 16
               data := rb.addr }]
           nmsgs := 2 }])) ∧
    (wb.data.length < 2 ^ 16 → wb.data.length % 2 ^ 16 = wb.data.length) ∧
    (rb.data.length < 2 ^ 16 → rb.data.length % 2 ^ 16 = rb.data.length) :=
  ⟨write_read_nonempty s wb rb hw hr,
   fun hwl => Nat.mod_eq_of_lt hwl, fun hrl => Nat.mod_eq_of_lt hrl⟩

theorem write_read_segment_pair_witness :
    I2C.write_read ⟨1, true, 0x137, ⟨0x23⟩⟩ ⟨11, [5]⟩ ⟨13, [0, 0]⟩ =
      (Except.ok (),
       [IoctlCall.i2cRdwr
         { segments := [⟨0x137, RDWR_FLAG_TEN, 1 % 2 ^ 16, 11⟩,
                        ⟨0x137, RDWR_FLAG_RD ||| RDWR_FLAG_TEN, 2 % 2 ^ 16, 13⟩]
           nmsgs := 2 }]) := by
  have h := (write_read_segment_pair ⟨1, true, 0x137, ⟨0x23⟩⟩ ⟨11, [5]⟩ ⟨13, [0, 0]⟩
    (by decide) (by decide)).1
  rw [h]
  rfl
